import Mathlib

/-!
Verification development for the review scheduling engine of the
kw-backend repository (`kw_webapp/models.py`, class `UserSpecific`).

Timestamps are modelled as whole seconds (`Nat`) measured from the
`datetime.min` origin used by the source's rounding arithmetic; the
source computes `(dt - dt.min).seconds`, the seconds-of-day component,
which here is `t % 86400`.  Absent timestamps (`None`) are `Option.none`.
The constants module (`kw_webapp/constants.py`) is not part of the
source tree; the definitions below that come from it are modelled from
the specification and say so in their doc comments.
-/

/-- The review record, field for field after the scheduling-relevant
columns of `UserSpecific` (models.py lines 209-225): `correct`,
`incorrect` and `streak` are non-negative integers, `last_studied` and
`next_review_date` nullable timestamps, and the `needs_review`,
`burned` and `critical` flags. -/
structure UserSpecific where
  correct : Nat
  incorrect : Nat
  streak : Nat
  last_studied : Option Nat
  needs_review : Bool
  next_review_date : Option Nat
  burned : Bool
  critical : Bool
deriving Repr, DecidableEq

/-- Modelled from the spec: `constants.SRS_TIMES`, the interval table, is
absent from the source tree.  Per spec §4.1/§4.3 it maps each active SRS
stage to a delay in hours, monotonically increasing, with no entry for
streak 0 (lesson) or for the burn stage and beyond.  Spec §8 scenario B
fixes an 8-stage example whose burn threshold is 8, so the table has
entries for streaks 1 through 7. -/
def SRS_TIMES (s : Nat) : Option Nat :=
  if s = 1 then some 4
  else if s = 2 then some 8
  else if s = 3 then some 24
  else if s = 4 then some 72
  else if s = 5 then some 168
  else if s = 6 then some 336
  else if s = 7 then some 720
  else none

/-- Modelled from the spec: `constants.WANIKANI_SRS_LEVELS[BURNED][0]`,
the streak value at which an item burns, is absent from the source tree.
Spec §8 scenario B describes streak 7 as one below an 8-stage burn
threshold, so the burn threshold is 8 (the first streak with no
interval-table entry). -/
def BURN_STREAK : Nat := 8

/-- Modelled from the spec: `constants.MINIMUM_ATTEMPT_COUNT_FOR_CRITICALITY`
is absent from the source tree.  Spec §8 scenario C treats 4 attempts as
below the minimum and 10 as at or above it; 5 is taken as the minimum. -/
def MINIMUM_ATTEMPT_COUNT_FOR_CRITICALITY : Nat := 5

/-- Modelled from the spec: `constants.REVIEW_ROUNDING_TIME.total_seconds()`
is absent from the source tree.  Spec §4.3 gives "nearest hour" as the
granularity example, so 3600 seconds. -/
def REVIEW_ROUNDING_SECONDS : Nat := 3600

/-- The rounding arithmetic shared by `_round_next_review_date`,
`_round_last_studied_date` and `_round_last_studied_up` (models.py
lines 348-378): take the seconds-of-day component of the timestamp,
compute `(seconds + round_to) // round_to * round_to`, and shift the
timestamp forward by the difference. -/
def roundDateUp (t : Nat) : Nat :=
  let roundTo := REVIEW_ROUNDING_SECONDS
  let seconds := t % 86400
  let rounding := (seconds + roundTo) / roundTo * roundTo
  t + (rounding - seconds)

/-- `UserSpecific._round_next_review_date` (models.py lines 365-371),
applied to the stored timestamp when present. -/
def round_next_review_date (r : UserSpecific) : UserSpecific :=
  { r with next_review_date := r.next_review_date.map roundDateUp }

/-- `UserSpecific._round_last_studied_date` (models.py lines 373-378). -/
def round_last_studied_date (r : UserSpecific) : UserSpecific :=
  { r with last_studied := r.last_studied.map roundDateUp }

/-- `UserSpecific._round_last_studied_up` (models.py lines 348-363);
its arithmetic is identical to `_round_last_studied_date`. -/
def round_last_studied_up (r : UserSpecific) : UserSpecific :=
  { r with last_studied := r.last_studied.map roundDateUp }

/-- `UserSpecific._round_review_time_up` (models.py lines 380-382):
round the next review date, then the last studied date. -/
def round_review_time_up (r : UserSpecific) : UserSpecific :=
  round_last_studied_date (round_next_review_date r)

/-- `UserSpecific.round_times` (models.py lines 332-335). -/
def round_times (r : UserSpecific) : UserSpecific :=
  if (SRS_TIMES r.streak).isSome then
    round_last_studied_up (round_review_time_up r)
  else r

/-- `UserSpecific._can_be_critical` (models.py lines 271-272). -/
def can_be_critical (r : UserSpecific) : Bool :=
  decide (MINIMUM_ATTEMPT_COUNT_FOR_CRITICALITY ≤ r.correct + r.incorrect)

/-- `UserSpecific._breaks_threshold` (models.py lines 274-275).  The
source compares `incorrect / (correct + incorrect)` against
`constants.CRITICALITY_THRESHOLD` in floating point; the threshold is
absent from the source tree and is modelled from the spec's value 0.8,
with the comparison taken exactly over the rationals:
`incorrect / total ≥ 4/5` iff `4 * total ≤ 5 * incorrect`. -/
def breaks_threshold (r : UserSpecific) : Bool :=
  decide (4 * (r.correct + r.incorrect) ≤ 5 * r.incorrect)

/-- `UserSpecific.is_critical` (models.py lines 277-281). -/
def is_critical (r : UserSpecific) : Bool :=
  can_be_critical r && breaks_threshold r

/-- `UserSpecific.set_criticality` (models.py lines 265-269). -/
def set_criticality (r : UserSpecific) : UserSpecific :=
  { r with critical := is_critical r }

/-- `UserSpecific.set_next_review_time` (models.py lines 309-315): if the
streak has no interval-table entry the next review date is cleared,
otherwise it is set to now plus the table's hours and rounded. -/
def set_next_review_time (now : Nat) (r : UserSpecific) : UserSpecific :=
  match SRS_TIMES r.streak with
  | none => { r with next_review_date := none }
  | some h =>
      round_next_review_date { r with next_review_date := some (now + 3600 * h) }

/-- `UserSpecific.answered_correctly` (models.py lines 230-245): a streak
of 0 (lesson) advances to 1 without counting a correct answer; otherwise
a first-try success increments `correct` and the streak and burns the
item when the new streak reaches the burn threshold.  In every case
`needs_review` clears, `last_studied` is stamped with the current time,
the next review time is recomputed and criticality is recomputed. -/
def answered_correctly (now : Nat) (first_try : Bool) (r : UserSpecific) : UserSpecific :=
  let r1 :=
    if r.streak = 0 then
      { r with streak := r.streak + 1 }
    else if first_try then
      let r' := { r with correct := r.correct + 1, streak := r.streak + 1 }
      if BURN_STREAK ≤ r'.streak then { r' with burned := true } else r'
    else r
  let r2 := { r1 with needs_review := false, last_studied := some now }
  set_criticality (set_next_review_time now r2)

/-- `UserSpecific.answered_incorrectly` (models.py lines 247-263):
increment `incorrect`; a streak of exactly 7 drops by two, otherwise a
streak above 1 drops by one; the streak is then clamped with
`max(0, streak)` and criticality is recomputed. -/
def answered_incorrectly (r : UserSpecific) : UserSpecific :=
  let r1 := { r with incorrect := r.incorrect + 1 }
  let r2 :=
    if r1.streak = 7 then { r1 with streak := r1.streak - 2 }
    else if 1 < r1.streak then { r1 with streak := r1.streak - 1 }
    else r1
  set_criticality { r2 with streak := max 0 r2.streak }

/-- `UserSpecific.reset` (models.py lines 337-346). -/
def reset (now : Nat) (r : UserSpecific) : UserSpecific :=
  { r with streak := 1, last_studied := none, next_review_date := some now,
           correct := 1, incorrect := 0, burned := false, needs_review := true }

/-- `UserSpecific.bring_review_out_of_vacation` (models.py lines
322-330): shift `last_studied` by the vacation duration; when the streak
has a table entry, recompute the next review date from the shifted
`last_studied` and round the times, otherwise clear it. -/
def bring_review_out_of_vacation (dur : Nat) (r : UserSpecific) : UserSpecific :=
  let r1 := { r with last_studied := r.last_studied.map (fun t => t + dur) }
  if (SRS_TIMES r1.streak).isSome then
    let r2 := { r1 with next_review_date :=
      (SRS_TIMES r1.streak).bind (fun h => r1.last_studied.map (fun t => t + 3600 * h)) }
    round_times r2
  else
    { r1 with next_review_date := none }

/-- A freshly created record, after the field defaults of models.py
lines 212-225: zero counters, streak 0, no `last_studied`, due for
review now, not burned, not critical. -/
def mkInitial (now : Nat) : UserSpecific :=
  { correct := 0, incorrect := 0, streak := 0, last_studied := none,
    needs_review := true, next_review_date := some now,
    burned := false, critical := false }

/-- The burned-record invariant of spec §3: a burned record has no
scheduled review and does not need review. -/
def burnedInvariant (r : UserSpecific) : Prop :=
  r.burned = true → r.next_review_date = none ∧ r.needs_review = false

instance (r : UserSpecific) : Decidable (burnedInvariant r) := by
  unfold burnedInvariant; infer_instance

/-- Helper for traces: apply `answered_correctly` with `first_try = true`
at time 0, `n` times in a row. -/
def correctN : Nat → UserSpecific → UserSpecific
  | 0, r => r
  | n + 1, r => correctN n (answered_correctly 0 true r)

/-- Concrete records used to instantiate the claim theorems and
counterexamples below. -/
def c1w : UserSpecific := { mkInitial 0 with streak := 7 }

def c2w : UserSpecific := { mkInitial 0 with streak := 3, needs_review := false }

def c3w : UserSpecific :=
  { correct := 7, incorrect := 0, streak := 8, last_studied := some 0,
    needs_review := false, next_review_date := none, burned := true, critical := false }

def c4w : UserSpecific := { mkInitial 0 with streak := 7 }

def c6w : UserSpecific := { mkInitial 0 with streak := 2, correct := 1, incorrect := 8 }

def c8w : UserSpecific :=
  { mkInitial 0 with
    streak := 1, last_studied := some 0,
    next_review_date := some 18000, needs_review := false }

def c9w : UserSpecific := { mkInitial 0 with streak := 8 }

def c10w : UserSpecific := { mkInitial 0 with correct := 5, incorrect := 3, streak := 4 }


lemma SRS_TIMES_eq_none (s : Nat) (h : 8 ≤ s) : SRS_TIMES s = none := by
  unfold SRS_TIMES
  split_ifs <;> first | rfl | omega

lemma roundDateUp_gt (t : Nat) : t < roundDateUp t := by
  simp only [roundDateUp, REVIEW_ROUNDING_SECONDS]
  omega

lemma roundDateUp_le_add (t : Nat) : roundDateUp t ≤ t + REVIEW_ROUNDING_SECONDS := by
  simp only [roundDateUp, REVIEW_ROUNDING_SECONDS]
  omega

lemma roundDateUp_mod (t : Nat) : roundDateUp t % REVIEW_ROUNDING_SECONDS = 0 := by
  simp only [roundDateUp, REVIEW_ROUNDING_SECONDS]
  omega

lemma snrt_correct (now : Nat) (r : UserSpecific) :
    (set_next_review_time now r).correct = r.correct := by
  unfold set_next_review_time round_next_review_date
  split <;> rfl

lemma snrt_incorrect (now : Nat) (r : UserSpecific) :
    (set_next_review_time now r).incorrect = r.incorrect := by
  unfold set_next_review_time round_next_review_date
  split <;> rfl

lemma snrt_streak (now : Nat) (r : UserSpecific) :
    (set_next_review_time now r).streak = r.streak := by
  unfold set_next_review_time round_next_review_date
  split <;> rfl

lemma snrt_burned (now : Nat) (r : UserSpecific) :
    (set_next_review_time now r).burned = r.burned := by
  unfold set_next_review_time round_next_review_date
  split <;> rfl

lemma snrt_needs_review (now : Nat) (r : UserSpecific) :
    (set_next_review_time now r).needs_review = r.needs_review := by
  unfold set_next_review_time round_next_review_date
  split <;> rfl

lemma snrt_last_studied (now : Nat) (r : UserSpecific) :
    (set_next_review_time now r).last_studied = r.last_studied := by
  unfold set_next_review_time round_next_review_date
  split <;> rfl

lemma snrt_next_none (now : Nat) (r : UserSpecific) (h : SRS_TIMES r.streak = none) :
    (set_next_review_time now r).next_review_date = none := by
  simp [set_next_review_time, h]

lemma snrt_next_some (now hrs : Nat) (r : UserSpecific) (h : SRS_TIMES r.streak = some hrs) :
    (set_next_review_time now r).next_review_date = some (roundDateUp (now + 3600 * hrs)) := by
  simp [set_next_review_time, round_next_review_date, h]

lemma sc_burned (r : UserSpecific) : (set_criticality r).burned = r.burned := rfl

lemma sc_needs_review (r : UserSpecific) : (set_criticality r).needs_review = r.needs_review := rfl

lemma sc_next (r : UserSpecific) : (set_criticality r).next_review_date = r.next_review_date := rfl

lemma sc_correct (r : UserSpecific) : (set_criticality r).correct = r.correct := rfl

lemma sc_incorrect (r : UserSpecific) : (set_criticality r).incorrect = r.incorrect := rfl

lemma sc_streak (r : UserSpecific) : (set_criticality r).streak = r.streak := rfl

lemma sc_last_studied (r : UserSpecific) : (set_criticality r).last_studied = r.last_studied := rfl

lemma ac_needs_review (now : Nat) (ft : Bool) (r : UserSpecific) :
    (answered_correctly now ft r).needs_review = false := by
  simp only [answered_correctly, sc_needs_review, snrt_needs_review]

lemma ai_burned (r : UserSpecific) : (answered_incorrectly r).burned = r.burned := by
  simp only [answered_incorrectly, sc_burned]
  split_ifs <;> rfl

lemma briov_burned (dur : Nat) (r : UserSpecific) :
    (bring_review_out_of_vacation dur r).burned = r.burned := by
  simp only [bring_review_out_of_vacation, round_times, round_last_studied_up,
    round_review_time_up, round_last_studied_date, round_next_review_date]
  split_ifs <;> rfl

lemma ac_burn_fields (now : Nat) (r : UserSpecific)
    (h0 : r.streak ≠ 0) (hbt : 8 ≤ r.streak + 1) :
    (answered_correctly now true r).burned = true ∧
    (answered_correctly now true r).next_review_date = none ∧
    (answered_correctly now true r).needs_review = false := by
  have hsrs : SRS_TIMES (r.streak + 1) = none := SRS_TIMES_eq_none _ hbt
  refine ⟨?_, ?_, ac_needs_review now true r⟩
  · simp only [answered_correctly, sc_burned, snrt_burned, BURN_STREAK]
    simp [h0, hbt]
  · simp only [answered_correctly, sc_next]
    rw [snrt_next_none]
    simp [h0, hbt, BURN_STREAK, hsrs]

lemma ac_not_burn (now : Nat) (ft : Bool) (r : UserSpecific) (hb : r.burned = false)
    (hB : (answered_correctly now ft r).burned = true) :
    r.streak ≠ 0 ∧ ft = true ∧ 8 ≤ r.streak + 1 := by
  simp only [answered_correctly, sc_burned, snrt_burned, BURN_STREAK] at hB
  split_ifs at hB with h0 hft hbt
  · simp [hb] at hB
  · exact ⟨h0, hft, hbt⟩
  · simp [hb] at hB
  · simp [hb] at hB

/-- Claim C1 (amended): for every non-burned record, each engine
operation yields a record satisfying the burned invariant (burned
implies no scheduled review and no review needed); in particular, when
`answered_correctly` with `first_try = true` pushes the streak to the
burn threshold it sets `burned`, clears the scheduled review and leaves
`needs_review` false.  The unrestricted claim, which also grades
already-burned records, is refuted by `C1_counterexample`. -/
theorem C1_burned_invariant (r : UserSpecific) (now dur : Nat) (ft : Bool)
    (hb : r.burned = false) :
    burnedInvariant (answered_correctly now ft r) ∧
    burnedInvariant (answered_incorrectly r) ∧
    burnedInvariant (reset now r) ∧
    burnedInvariant (bring_review_out_of_vacation dur r) ∧
    (r.streak ≠ 0 → r.streak + 1 = BURN_STREAK →
      (answered_correctly now true r).burned = true ∧
      (answered_correctly now true r).next_review_date = none ∧
      (answered_correctly now true r).needs_review = false) := by
  refine ⟨?_, ?_, ?_, ?_, ?_⟩
  · intro hB
    obtain ⟨h0, hft, hbt⟩ := ac_not_burn now ft r hb hB
    subst hft
    exact ⟨(ac_burn_fields now r h0 hbt).2.1, ac_needs_review now true r⟩
  · intro hB
    rw [ai_burned] at hB
    simp [hb] at hB
  · intro hB
    simp [reset] at hB
  · intro hB
    rw [briov_burned] at hB
    simp [hb] at hB
  · intro h0 hbt
    exact ac_burn_fields now r h0 (by simp [BURN_STREAK] at hbt; omega)

/-- Claim C1 counterexample: grading operations are also defined on
burned records, and a trace that burns an item, then answers it
incorrectly (dropping the streak back into the interval table), then
answers it correctly not on the first try, reaches a record that is
burned yet carries a scheduled review date, violating the invariant. -/
theorem C1_counterexample :
    ¬ burnedInvariant
        (answered_correctly 0 false (answered_incorrectly (correctN 8 (mkInitial 0)))) := by
  decide

/-- Claim C1 witness: the amended invariant instantiated at a concrete
record one answer away from burning. -/
theorem C1_burned_invariant_witness :
    burnedInvariant (answered_correctly 0 true c1w) ∧
    burnedInvariant (answered_incorrectly c1w) ∧
    burnedInvariant (reset 0 c1w) ∧
    burnedInvariant (bring_review_out_of_vacation 5 c1w) ∧
    (c1w.streak ≠ 0 → c1w.streak + 1 = BURN_STREAK →
      (answered_correctly 0 true c1w).burned = true ∧
      (answered_correctly 0 true c1w).next_review_date = none ∧
      (answered_correctly 0 true c1w).needs_review = false) :=
  C1_burned_invariant c1w 0 5 true rfl

lemma ai_incorrect (r : UserSpecific) :
    (answered_incorrectly r).incorrect = r.incorrect + 1 := by
  simp only [answered_incorrectly, sc_incorrect]
  split_ifs <;> rfl

lemma ai_correct (r : UserSpecific) :
    (answered_incorrectly r).correct = r.correct := by
  simp only [answered_incorrectly, sc_correct]
  split_ifs <;> rfl

lemma ac_last_studied (now : Nat) (ft : Bool) (r : UserSpecific) :
    (answered_correctly now ft r).last_studied = some now := by
  simp only [answered_correctly, sc_last_studied, snrt_last_studied]

lemma ac_burned_of_burned (now : Nat) (ft : Bool) (r : UserSpecific) (hb : r.burned = true) :
    (answered_correctly now ft r).burned = true := by
  simp only [answered_correctly, sc_burned, snrt_burned]
  split_ifs <;> simp [hb]

/-- Claim C2 counterexample: `answered_incorrectly` does not set
`needs_review`; applied to a record with `needs_review = false`, the
result still has `needs_review = false`, not true as claimed. -/
theorem C2_counterexample : ¬ ((answered_incorrectly c2w).needs_review = true) := by
  decide

/-- Claim C2 (amended): `answered_incorrectly` leaves `needs_review`
unchanged (it does not set it; a record under review is already due, so
it merely remains eligible) and leaves `next_review_date` unchanged,
recomputing no review time within this operation. -/
theorem C2_incorrect_preserves (r : UserSpecific) :
    (answered_incorrectly r).needs_review = r.needs_review ∧
    (answered_incorrectly r).next_review_date = r.next_review_date := by
  constructor <;>
    (simp only [answered_incorrectly, sc_needs_review, sc_next]; split_ifs <;> rfl)

/-- Claim C3 counterexample: grading a burned record is not a no-op;
`answered_incorrectly` on a burned record changes it (the incorrect
counter increments and the streak drops). -/
theorem C3_counterexample : ¬ (answered_incorrectly c3w = c3w) := by
  decide

/-- Claim C3 (amended): the engine does not short-circuit on burned
records; grading applies the ordinary transition — `answered_incorrectly`
increments `incorrect`, `answered_correctly` clears `needs_review` and
stamps `last_studied` — while the `burned` flag itself stays true. -/
theorem C3_burned_grading (r : UserSpecific) (now : Nat) (ft : Bool)
    (hb : r.burned = true) :
    (answered_incorrectly r).burned = true ∧
    (answered_incorrectly r).incorrect = r.incorrect + 1 ∧
    (answered_correctly now ft r).burned = true ∧
    (answered_correctly now ft r).needs_review = false ∧
    (answered_correctly now ft r).last_studied = some now := by
  exact ⟨(ai_burned r).trans hb, ai_incorrect r, ac_burned_of_burned now ft r hb,
    ac_needs_review now ft r, ac_last_studied now ft r⟩

/-- Claim C3 witness: the amended statement at the concrete burned
record `c3w`. -/
theorem C3_burned_grading_witness :
    (answered_incorrectly c3w).burned = true ∧
    (answered_incorrectly c3w).incorrect = c3w.incorrect + 1 ∧
    (answered_correctly 0 true c3w).burned = true ∧
    (answered_correctly 0 true c3w).needs_review = false ∧
    (answered_correctly 0 true c3w).last_studied = some 0 :=
  C3_burned_grading c3w 0 true rfl

/-- Claim C4: `answered_incorrectly` drops the streak by two from the
about-to-burn stage (one below the burn threshold), by one from any
other streak above 1, and leaves it unchanged otherwise; a record that
has left lesson state never drops below streak 1, and the streak never
increases. -/
theorem C4_incorrect_streak (r : UserSpecific) :
    (answered_incorrectly r).streak =
      (if r.streak = BURN_STREAK - 1 then r.streak - 2
       else if 1 < r.streak then r.streak - 1
       else r.streak) ∧
    (1 ≤ r.streak → 1 ≤ (answered_incorrectly r).streak) ∧
    (answered_incorrectly r).streak ≤ r.streak := by
  simp only [answered_incorrectly, sc_streak, BURN_STREAK, Nat.zero_max]
  refine ⟨?_, ?_, ?_⟩ <;> split_ifs <;> (simp_all; try omega)

/-- Claim C4 witness: the streak postcondition at the concrete
about-to-burn record `c4w`. -/
theorem C4_incorrect_streak_witness :
    (answered_incorrectly c4w).streak =
      (if c4w.streak = BURN_STREAK - 1 then c4w.streak - 2
       else if 1 < c4w.streak then c4w.streak - 1
       else c4w.streak) ∧
    (1 ≤ c4w.streak → 1 ≤ (answered_incorrectly c4w).streak) ∧
    (answered_incorrectly c4w).streak ≤ c4w.streak :=
  C4_incorrect_streak c4w

/-- Claim C5: from lesson state (streak 0), `answered_correctly` with
any `first_try` value advances the streak to 1 without counting a
correct answer, clears `needs_review`, stamps `last_studied` with the
current time, and schedules the next review from the interval-table
entry for streak 1. -/
theorem C5_lesson_correct (r : UserSpecific) (now : Nat) (ft : Bool)
    (h : r.streak = 0) :
    (answered_correctly now ft r).streak = 1 ∧
    (answered_correctly now ft r).correct = r.correct ∧
    (answered_correctly now ft r).needs_review = false ∧
    (answered_correctly now ft r).last_studied = some now ∧
    SRS_TIMES 1 = some 4 ∧
    (answered_correctly now ft r).next_review_date = some (roundDateUp (now + 3600 * 4)) := by
  refine ⟨?_, ?_, ac_needs_review now ft r, ac_last_studied now ft r, rfl, ?_⟩
  · simp [answered_correctly, sc_streak, snrt_streak, h]
  · simp [answered_correctly, sc_correct, snrt_correct, h]
  · simp only [answered_correctly, h]
    rw [sc_next, snrt_next_some]
    rfl

/-- Claim C5 witness: the lesson transition at a freshly created
record. -/
theorem C5_lesson_correct_witness :
    (answered_correctly 0 false (mkInitial 0)).streak = 1 ∧
    (answered_correctly 0 false (mkInitial 0)).correct = (mkInitial 0).correct ∧
    (answered_correctly 0 false (mkInitial 0)).needs_review = false ∧
    (answered_correctly 0 false (mkInitial 0)).last_studied = some 0 ∧
    SRS_TIMES 1 = some 4 ∧
    (answered_correctly 0 false (mkInitial 0)).next_review_date = some (roundDateUp (0 + 3600 * 4)) :=
  C5_lesson_correct (mkInitial 0) 0 false rfl

lemma sc_critical_iff (x : UserSpecific) :
    (set_criticality x).critical = true ↔
      (MINIMUM_ATTEMPT_COUNT_FOR_CRITICALITY ≤
          (set_criticality x).correct + (set_criticality x).incorrect ∧
       4 * ((set_criticality x).correct + (set_criticality x).incorrect) ≤
          5 * (set_criticality x).incorrect) := by
  simp [set_criticality, is_critical, can_be_critical, breaks_threshold]

lemma sc_not_critical (x : UserSpecific)
    (h : (set_criticality x).correct + (set_criticality x).incorrect <
         MINIMUM_ATTEMPT_COUNT_FOR_CRITICALITY) :
    (set_criticality x).critical = false := by
  have hx : x.correct + x.incorrect < MINIMUM_ATTEMPT_COUNT_FOR_CRITICALITY := h
  simp only [MINIMUM_ATTEMPT_COUNT_FOR_CRITICALITY] at hx
  simp [set_criticality, is_critical, can_be_critical,
    MINIMUM_ATTEMPT_COUNT_FOR_CRITICALITY]
  intro h5
  omega

/-- Claim C6: after each grading operation the `critical` flag holds
exactly when the resulting counters satisfy both the minimum-attempt
requirement and the error-rate threshold (incorrect/total at least 4/5);
in particular, below the minimum attempt count the record is never
critical. -/
theorem C6_criticality (r : UserSpecific) (now : Nat) (ft : Bool) :
    ((answered_correctly now ft r).critical = true ↔
      (MINIMUM_ATTEMPT_COUNT_FOR_CRITICALITY ≤
          (answered_correctly now ft r).correct + (answered_correctly now ft r).incorrect ∧
       4 * ((answered_correctly now ft r).correct + (answered_correctly now ft r).incorrect) ≤
          5 * (answered_correctly now ft r).incorrect)) ∧
    ((answered_incorrectly r).critical = true ↔
      (MINIMUM_ATTEMPT_COUNT_FOR_CRITICALITY ≤
          (answered_incorrectly r).correct + (answered_incorrectly r).incorrect ∧
       4 * ((answered_incorrectly r).correct + (answered_incorrectly r).incorrect) ≤
          5 * (answered_incorrectly r).incorrect)) ∧
    ((answered_correctly now ft r).correct + (answered_correctly now ft r).incorrect <
        MINIMUM_ATTEMPT_COUNT_FOR_CRITICALITY →
      (answered_correctly now ft r).critical = false) ∧
    ((answered_incorrectly r).correct + (answered_incorrectly r).incorrect <
        MINIMUM_ATTEMPT_COUNT_FOR_CRITICALITY →
      (answered_incorrectly r).critical = false) := by
  exact ⟨sc_critical_iff _, sc_critical_iff _,
    fun hlt => sc_not_critical _ hlt, fun hlt => sc_not_critical _ hlt⟩

/-- Claim C6 witness: the criticality characterisation at a concrete
struggling record (after the incorrect answer: 1 correct, 9 incorrect,
10 attempts, error rate 9/10 at least 4/5). -/
theorem C6_criticality_witness :
    ((answered_correctly 0 true c6w).critical = true ↔
      (MINIMUM_ATTEMPT_COUNT_FOR_CRITICALITY ≤
          (answered_correctly 0 true c6w).correct + (answered_correctly 0 true c6w).incorrect ∧
       4 * ((answered_correctly 0 true c6w).correct + (answered_correctly 0 true c6w).incorrect) ≤
          5 * (answered_correctly 0 true c6w).incorrect)) ∧
    ((answered_incorrectly c6w).critical = true ↔
      (MINIMUM_ATTEMPT_COUNT_FOR_CRITICALITY ≤
          (answered_incorrectly c6w).correct + (answered_incorrectly c6w).incorrect ∧
       4 * ((answered_incorrectly c6w).correct + (answered_incorrectly c6w).incorrect) ≤
          5 * (answered_incorrectly c6w).incorrect)) ∧
    ((answered_correctly 0 true c6w).correct + (answered_correctly 0 true c6w).incorrect <
        MINIMUM_ATTEMPT_COUNT_FOR_CRITICALITY →
      (answered_correctly 0 true c6w).critical = false) ∧
    ((answered_incorrectly c6w).correct + (answered_incorrectly c6w).incorrect <
        MINIMUM_ATTEMPT_COUNT_FOR_CRITICALITY →
      (answered_incorrectly c6w).critical = false) :=
  C6_criticality c6w 0 true

/-- Claim C7: for every timestamp and every interval of N hours, the
rounded next review date lands exactly on a granularity boundary of its
own day (its seconds-of-day are a multiple of the granularity), the
rounding never moves the timestamp backwards, and it moves it forward by
at most one full granularity. -/
theorem C7_rounding (t N : Nat) :
    roundDateUp (t + 3600 * N) % 86400 % REVIEW_ROUNDING_SECONDS = 0 ∧
    t + 3600 * N ≤ roundDateUp (t + 3600 * N) ∧
    roundDateUp (t + 3600 * N) ≤ (t + 3600 * N) + REVIEW_ROUNDING_SECONDS := by
  simp only [roundDateUp, REVIEW_ROUNDING_SECONDS]
  refine ⟨?_, ?_, ?_⟩ <;> omega

/-- Claim C8: vacation re-entry on a non-burned record with a known
`last_studied` shifts `last_studied` by the vacation duration; when the
streak has an interval-table entry the next review date becomes the
shifted `last_studied` plus the interval, rounded, and the shifted
`last_studied` itself is rounded onto a granularity boundary at or after
the shift; otherwise the next review date is cleared.  Consequently,
for a record whose prior next review date was consistently derived from
`last_studied`, the new next review date differs from the old one by the
vacation duration to within one rounding granularity. -/
theorem C8_vacation (r : UserSpecific) (dur t : Nat)
    (_hb : r.burned = false) (hls : r.last_studied = some t) :
    (SRS_TIMES r.streak = none →
       (bring_review_out_of_vacation dur r).next_review_date = none ∧
       (bring_review_out_of_vacation dur r).last_studied = some (t + dur)) ∧
    (∀ h, SRS_TIMES r.streak = some h →
       (bring_review_out_of_vacation dur r).next_review_date =
         some (roundDateUp (t + dur + 3600 * h)) ∧
       (bring_review_out_of_vacation dur r).last_studied =
         some (roundDateUp (roundDateUp (t + dur))) ∧
       t + dur ≤ roundDateUp (roundDateUp (t + dur)) ∧
       roundDateUp (roundDateUp (t + dur)) % REVIEW_ROUNDING_SECONDS = 0 ∧
       (∀ nb, r.next_review_date = some nb → nb = roundDateUp (t + 3600 * h) →
          nb + dur ≤ roundDateUp (t + dur + 3600 * h) + REVIEW_ROUNDING_SECONDS ∧
          roundDateUp (t + dur + 3600 * h) ≤ nb + dur + REVIEW_ROUNDING_SECONDS)) := by
  constructor
  · intro hsrs
    constructor <;>
      simp [bring_review_out_of_vacation, hls, hsrs]
  · intro h hsrs
    refine ⟨?_, ?_, ?_, roundDateUp_mod _, ?_⟩
    · simp [bring_review_out_of_vacation, round_times, round_review_time_up,
        round_next_review_date, round_last_studied_date, round_last_studied_up, hls, hsrs]
    · simp [bring_review_out_of_vacation, round_times, round_review_time_up,
        round_next_review_date, round_last_studied_date, round_last_studied_up, hls, hsrs]
    · have h1 := roundDateUp_gt (t + dur)
      have h2 := roundDateUp_gt (roundDateUp (t + dur))
      omega
    · intro nb hnb hnbv
      subst hnbv
      have h1 := roundDateUp_gt (t + 3600 * h)
      have h2 := roundDateUp_le_add (t + 3600 * h)
      have h3 := roundDateUp_gt (t + dur + 3600 * h)
      have h4 := roundDateUp_le_add (t + dur + 3600 * h)
      simp only [REVIEW_ROUNDING_SECONDS] at *
      omega

/-- Claim C8 witness: the vacation shift at a concrete record studied at
time 0 with streak 1 and a consistently derived next review date. -/
theorem C8_vacation_witness :
    (SRS_TIMES c8w.streak = none →
       (bring_review_out_of_vacation 100 c8w).next_review_date = none ∧
       (bring_review_out_of_vacation 100 c8w).last_studied = some (0 + 100)) ∧
    (∀ h, SRS_TIMES c8w.streak = some h →
       (bring_review_out_of_vacation 100 c8w).next_review_date =
         some (roundDateUp (0 + 100 + 3600 * h)) ∧
       (bring_review_out_of_vacation 100 c8w).last_studied =
         some (roundDateUp (roundDateUp (0 + 100))) ∧
       0 + 100 ≤ roundDateUp (roundDateUp (0 + 100)) ∧
       roundDateUp (roundDateUp (0 + 100)) % REVIEW_ROUNDING_SECONDS = 0 ∧
       (∀ nb, c8w.next_review_date = some nb → nb = roundDateUp (0 + 3600 * h) →
          nb + 100 ≤ roundDateUp (0 + 100 + 3600 * h) + REVIEW_ROUNDING_SECONDS ∧
          roundDateUp (0 + 100 + 3600 * h) ≤ nb + 100 + REVIEW_ROUNDING_SECONDS)) :=
  C8_vacation c8w 100 0 rfl rfl

/-- Claim C9 counterexample: on a non-burned record whose streak (8) is
absent from the interval table, the scheduling step does not signal any
error — the source has no InvalidStateError — it silently returns the
record with the next review date cleared. -/
theorem C9_counterexample :
    set_next_review_time 0 c9w = { c9w with next_review_date := none } ∧
    (answered_correctly 0 false c9w).next_review_date = none := by
  constructor <;> decide

/-- Claim C9 (amended): on every non-burned record whose streak is
absent from the interval table, the scheduling step (and the scheduling
inside `answered_correctly`) silently clears `next_review_date` instead
of signalling an error. -/
theorem C9_no_table_entry_clears (r : UserSpecific) (now : Nat)
    (_hb : r.burned = false) (hsrs : SRS_TIMES r.streak = none) :
    set_next_review_time now r = { r with next_review_date := none } ∧
    (r.streak ≠ 0 → (answered_correctly now false r).next_review_date = none) := by
  constructor
  · simp [set_next_review_time, hsrs]
  · intro h0
    simp only [answered_correctly, sc_next]
    rw [snrt_next_none]
    simp [h0, hsrs]

/-- Claim C9 witness: the amended statement at the concrete corrupted
record `c9w`. -/
theorem C9_no_table_entry_clears_witness :
    set_next_review_time 5 c9w = { c9w with next_review_date := none } ∧
    (c9w.streak ≠ 0 → (answered_correctly 5 false c9w).next_review_date = none) :=
  C9_no_table_entry_clears c9w 5 rfl rfl

/-- Claim C10 counterexample: `reset` is not monotone on the counters;
on a record with 5 correct and 3 incorrect it rewrites them to 1 and 0. -/
theorem C10_counterexample :
    ¬ (c10w.correct ≤ (reset 0 c10w).correct ∧
       c10w.incorrect ≤ (reset 0 c10w).incorrect) := by
  decide

lemma briov_correct (dur : Nat) (r : UserSpecific) :
    (bring_review_out_of_vacation dur r).correct = r.correct := by
  simp only [bring_review_out_of_vacation, round_times, round_last_studied_up,
    round_review_time_up, round_last_studied_date, round_next_review_date]
  split_ifs <;> rfl

lemma briov_incorrect (dur : Nat) (r : UserSpecific) :
    (bring_review_out_of_vacation dur r).incorrect = r.incorrect := by
  simp only [bring_review_out_of_vacation, round_times, round_last_studied_up,
    round_review_time_up, round_last_studied_date, round_next_review_date]
  split_ifs <;> rfl

lemma ac_correct_le (now : Nat) (ft : Bool) (r : UserSpecific) :
    r.correct ≤ (answered_correctly now ft r).correct := by
  simp only [answered_correctly, sc_correct, snrt_correct]
  split_ifs <;> simp

lemma ac_incorrect_eq (now : Nat) (ft : Bool) (r : UserSpecific) :
    (answered_correctly now ft r).incorrect = r.incorrect := by
  simp only [answered_correctly, sc_incorrect, snrt_incorrect]
  split_ifs <;> rfl

/-- Claim C10 (amended): the `correct` and `incorrect` counters never
decrease under `answered_correctly`, `answered_incorrectly` and
`bring_review_out_of_vacation`; `reset`, however, reinitialises them to
1 and 0 rather than preserving them. -/
theorem C10_counters_monotone (r : UserSpecific) (now dur : Nat) (ft : Bool) :
    (r.correct ≤ (answered_correctly now ft r).correct ∧
     r.incorrect ≤ (answered_correctly now ft r).incorrect) ∧
    (r.correct ≤ (answered_incorrectly r).correct ∧
     r.incorrect ≤ (answered_incorrectly r).incorrect) ∧
    (r.correct ≤ (bring_review_out_of_vacation dur r).correct ∧
     r.incorrect ≤ (bring_review_out_of_vacation dur r).incorrect) ∧
    ((reset now r).correct = 1 ∧ (reset now r).incorrect = 0) := by
  refine ⟨⟨ac_correct_le now ft r, ?_⟩, ⟨?_, ?_⟩, ⟨?_, ?_⟩, rfl, rfl⟩
  · rw [ac_incorrect_eq]
  · rw [ai_correct]
  · rw [ai_incorrect]
    omega
  · rw [briov_correct]
  · rw [briov_incorrect]
